import Mathlib

/-!
Shallow embedding of the email-triage pipeline of `src/routes/gmail/index.ts`
(Hono route module).  JavaScript strings are modelled as Lean `String`
(a structure over `List Char`); JS string operations (`substring`, `includes`,
`toLowerCase`, `trim`, `split`) are modelled character-wise on `String.data`.
JS `\s` is modelled by `Char.isWhitespace` (ASCII whitespace), and JS
`toLowerCase` by `Char.toLower`; both agree with the source on the ASCII
range, which is the range the route manipulates.
-/

/-- JS `s.toLowerCase()`. -/
def lcStr (s : String) : String := ⟨s.data.map Char.toLower⟩

/-- JS `s.substring(0, n)`. -/
def strTake (s : String) (n : Nat) : String := ⟨s.data.take n⟩

/-- JS `hay.includes(sub)`. -/
def strIncl (hay sub : String) : Bool := hay.data.tails.any (fun t => sub.data.isPrefixOf t)

/-- Whitespace class used for JS `\s` and `trim`. -/
def jsIsSpace (c : Char) : Bool := c.isWhitespace

/-- JS `s.trim()`. -/
def jsTrim (s : String) : String :=
  ⟨((s.data.dropWhile jsIsSpace).reverse.dropWhile jsIsSpace).reverse⟩

/-- Character class of the regex `.` (anything but a line terminator). -/
def dotChar (c : Char) : Bool := !(c = '\n' || c = '\r')

/-- Match of `(.+?)>` at the head of the list: the shortest nonempty run of
non-newline characters followed by `>`.  Used for the regex `/<(.+?)>/`
in `isPreviouslyResponded`. -/
def angleSeg : List Char → Option (List Char)
  | [] => none
  | c :: rest =>
    if !dotChar c then none
    else
      match rest with
      | '>' :: _ => some [c]
      | _ => (angleSeg rest).map (fun s => c :: s)

/-- First match of the regex `/<(.+?)>/` (captured group), scanning left to
right as the JS regex engine does. -/
def extractAngle : List Char → Option (List Char)
  | [] => none
  | c :: rest =>
    if c = '<' then
      match angleSeg rest with
      | some s => some s
      | none => extractAngle rest
    else extractAngle rest

/-- Match of `([^>]+)>` at the head of the list: a nonempty run of
characters other than `>` terminated by `>`.  Used for the recipient
regex `/<([^>]+)>/` in `getSentEmailsFromGmail`. -/
def angleSegGreedy (l : List Char) : Option (List Char) :=
  let pre := l.takeWhile (fun d => !(d = '>'))
  if pre.length = 0 then none
  else if pre.length < l.length then some pre
  else none

/-- First match of the regex `/<([^>]+)>/` (captured group). -/
def extractAngleGreedy : List Char → Option (List Char)
  | [] => none
  | c :: rest =>
    if c = '<' then
      match angleSegGreedy rest with
      | some s => some s
      | none => extractAngleGreedy rest
    else extractAngleGreedy rest

-- --- Type definitions (mirroring the `interface` declarations) ---

structure EmailHeader where
  name : String
  value : String
deriving DecidableEq, Repr

structure Email where
  id : String
  messageId : String
  threadId : String
  subject : String
  «from» : String
  «to» : List String
  cc : List String
  receivedDateTime : String
  body : String
  snippet : String
  headers : List EmailHeader
deriving DecidableEq, Repr

structure SentEmail where
  id : String
  subject : String
  recipients : List String
  sentDateTime : String
deriving DecidableEq, Repr

inductive Importance where
  | high
  | medium
  | low
deriving DecidableEq, Repr

/-- Shape shared by `AiEmailAnalysis` and `BatchAnalyzedEmail` in the source
(the two interfaces declare the same fields). -/
structure BatchAnalyzedEmail where
  emailId : String
  importance : Importance
  reason : String
  needs_response : Bool
  time_sensitive : Bool
  topics : List String
deriving DecidableEq, Repr

structure AnalyzedEmail extends Email where
  analysis : BatchAnalyzedEmail
  already_responded : Bool
deriving DecidableEq, Repr

structure DisplayAnalyzedEmail where
  id : String
  «from» : String
  subject : String
  importance : Importance
  reason : String
  needs_response : Bool
  time_sensitive : Bool
  topics : List String
deriving DecidableEq, Repr

-- --- Response-Match Filter (`isPreviouslyResponded`) ---

/-- Sender extraction: `email.from.match(/<(.+?)>/)`, the captured group
lowercased on a match, otherwise the whole `from` string lowercased. -/
def senderOf (fromStr : String) : String :=
  match extractAngle fromStr.data with
  | some s => lcStr ⟨s⟩
  | none => lcStr fromStr

/-- Subject normalization: `subject.toLowerCase().replace(/^(?:re|fwd):\s*\x2f, "")`
(strip one leading `re:` or `fwd:` prefix together with the whitespace the
`\s*` consumes, after lowercasing). -/
def cleanSubject (s : String) : String :=
  let t := lcStr s
  if "re:".data.isPrefixOf t.data then ⟨(t.data.drop 3).dropWhile jsIsSpace⟩
  else if "fwd:".data.isPrefixOf t.data then ⟨(t.data.drop 4).dropWhile jsIsSpace⟩
  else t

/-- Loop body of `isPreviouslyResponded`: recipient and subject check for one
sent summary. -/
def sentMatches (email : Email) (sentEmail : SentEmail) : Bool :=
  sentEmail.recipients.contains (senderOf email.«from») &&
    (cleanSubject email.subject == cleanSubject sentEmail.subject ||
     strIncl (cleanSubject email.subject) (cleanSubject sentEmail.subject) ||
     strIncl (cleanSubject sentEmail.subject) (cleanSubject email.subject))

/-- `isPreviouslyResponded(email, sentEmails)` from the source: guard on a
falsy (empty) sender, then a for-loop with early `return true`, which is
`List.any` of the loop body. -/
def isPreviouslyResponded (email : Email) (sentEmails : List SentEmail) : Bool :=
  let senderEmail := senderOf email.«from»
  if senderEmail == "" then false
  else sentEmails.any (sentMatches email)

/-- Modelled from the spec words for the response-match filter: some sent
summary lists the sender address among its recipients and its normalized
subject is equal to, a substring of, or a superstring of the inbound
normalized subject. -/
def respondedSpec (email : Email) (sentEmails : List SentEmail) : Prop :=
  ∃ s ∈ sentEmails, senderOf email.«from» ∈ s.recipients ∧
    (cleanSubject email.subject = cleanSubject s.subject ∨
     strIncl (cleanSubject email.subject) (cleanSubject s.subject) = true ∨
     strIncl (cleanSubject s.subject) (cleanSubject email.subject) = true)

instance (email : Email) (sentEmails : List SentEmail) :
    Decidable (respondedSpec email sentEmails) := by
  unfold respondedSpec
  infer_instance

-- --- Mail Source Adapter (`getEmailsFromGmail`, `getSentEmailsFromGmail`) ---

/-- Header of a provider message (`Schema$MessagePartHeader`): both fields
are optional in the provider schema. -/
structure RawHeader where
  name : Option String
  value : Option String
deriving DecidableEq, Repr

/-- Body part of a provider message.  `dataText` stands for the decoded text
of `part.body?.data` (the base64 transport encoding is abstracted away:
the route only decodes and never inspects the encoded form). -/
structure RawPart where
  mimeType : Option String
  dataText : Option String
deriving DecidableEq, Repr

/-- One listed provider message together with its fetched full form
(`messages.list` entry plus the `messages.get` response used for it).
`listId` is the id in the listing, `id`/`threadId` those of the fetched
data; `bodyData` is the decoded text of `payload?.body?.data`. -/
structure RawMessage where
  listId : Option String
  id : Option String
  threadId : Option String
  headers : Option (List RawHeader)
  parts : Option (List RawPart)
  bodyData : Option String
  mimeType : Option String
  snippet : Option String
deriving DecidableEq, Repr

/-- Global replace of the regex `/<[^>]*>/g` by a space: every bracketed
run (a `<`, then characters other than `>`, then `>`) becomes one space;
a `<` with no closing `>` is kept verbatim. -/
def removeTags (l : List Char) : List Char :=
  match l with
  | [] => []
  | c :: rest =>
    if c = '<' then
      let pre := rest.takeWhile (fun d => !(d = '>'))
      if pre.length < rest.length then
        ' ' :: removeTags (rest.drop (pre.length + 1))
      else c :: removeTags rest
    else c :: removeTags rest
termination_by l.length
decreasing_by
  · simp [List.length_drop]
    omega
  · simp
  · simp

/-- Global replace of the regex `/\s+/g` by a single space: each maximal
whitespace run becomes one space (emitted at the end of the run). -/
def collapseWs (l : List Char) : List Char :=
  match l with
  | [] => []
  | c :: rest =>
    if jsIsSpace c then
      match rest with
      | [] => [' ']
      | d :: _ => if jsIsSpace d then collapseWs rest else ' ' :: collapseWs rest
    else c :: collapseWs rest

/-- HTML-to-text conversion used for `text/html` bodies:
`body.replace(/<[^>]*>/g, " ").replace(/\s+/g, " ").trim()`. -/
def stripHtml (s : String) : String :=
  jsTrim ⟨collapseWs (removeTags s.data)⟩

/-- `payload?.headers?.find(h => h.name === nm)?.value`. -/
def findHeaderValue (m : RawMessage) (nm : String) : Option String :=
  ((m.headers.getD []).find? (fun h => h.name == some nm)).bind (fun h => h.value)

/-- Body resolution of `getEmailsFromGmail`: prefer a `text/plain` part with
truthy (nonempty) data; else fall back to a `text/html` part, stripped;
else, without parts, use `payload.body.data`, stripped when the payload
mime type is `text/html`. -/
def resolveBody (m : RawMessage) : String :=
  match m.parts with
  | some parts =>
    match parts.find? (fun p => p.mimeType == some "text/plain" && !(p.dataText.getD "" == "")) with
    | some p => p.dataText.getD ""
    | none =>
      match parts.find? (fun p => p.mimeType == some "text/html" && !(p.dataText.getD "" == "")) with
      | some p => stripHtml (p.dataText.getD "")
      | none => ""
  | none =>
    if !(m.bodyData.getD "" == "") then
      if m.mimeType == some "text/html" then stripHtml (m.bodyData.getD "")
      else m.bodyData.getD ""
    else ""

/-- Headers copied onto the built email: keep those whose name and value are
both strings. -/
def keptHeaders (m : RawMessage) : List EmailHeader :=
  (m.headers.getD []).filterMap (fun h =>
    match h.name, h.value with
    | some n, some v => some { name := n, value := v }
    | _, _ => none)

/-- Per-message body of the `getEmailsFromGmail` loop. `now` is the fetch
time `new Date().toISOString()`; `parseIso` models
`v => new Date(v).toISOString()` on a date-header string.  Returns `none`
when the message is skipped (`continue` on a falsy listed id, or the
guard `msg.data.id && msg.data.threadId` failing). -/
def convertMessage (now : String) (parseIso : String → String) (m : RawMessage) : Option Email :=
  if m.listId.getD "" == "" then none
  else
    match m.id, m.threadId with
    | some mid, some tid =>
      if mid == "" || tid == "" then none
      else
        some
          { id := mid
            messageId := (findHeaderValue m "Message-ID").getD ""
            threadId := tid
            subject :=
              if (findHeaderValue m "Subject").getD "" == "" then "No Subject"
              else (findHeaderValue m "Subject").getD ""
            «from» :=
              if (findHeaderValue m "From").getD "" == "" then "Unknown Sender"
              else (findHeaderValue m "From").getD ""
            «to» := []
            cc := []
            receivedDateTime :=
              if (findHeaderValue m "Date").getD "" == "" then now
              else parseIso ((findHeaderValue m "Date").getD "")
            body := jsTrim (resolveBody m)
            snippet := m.snippet.getD ""
            headers := keptHeaders m }
    | _, _ => none

/-- `getEmailsFromGmail` over the listed messages (the provider listing and
the per-message fetches are the `msgs` input; a provider-call failure
aborts the function before this loop and is modelled at the call site). -/
def getEmailsFromGmail (now : String) (parseIso : String → String)
    (msgs : List RawMessage) : List Email :=
  msgs.filterMap (convertMessage now parseIso)

/-- Recipient parsing of `getSentEmailsFromGmail`:
`toHeader.split(",").map(e => e.match(/<([^>]+)>/)?.[1] || e.trim()).filter(e => e)`. -/
def parseRecipients (toHeader : String) : List String :=
  ((toHeader.splitOn ",").map (fun e =>
      match extractAngleGreedy e.data with
      | some a => (⟨a⟩ : String)
      | none => jsTrim e)).filter (fun e => !(e == ""))

/-- Per-message body of the `getSentEmailsFromGmail` loop. -/
def convertSent (now : String) (parseIso : String → String) (m : RawMessage) : Option SentEmail :=
  if m.listId.getD "" == "" then none
  else
    match m.id with
    | some mid =>
      if mid == "" then none
      else
        some
          { id := mid
            subject := (findHeaderValue m "Subject").getD ""
            recipients := (parseRecipients ((findHeaderValue m "To").getD "")).map lcStr
            sentDateTime :=
              parseIso
                (if (findHeaderValue m "Date").getD "" == "" then now
                 else (findHeaderValue m "Date").getD "") }
    | none => none

/-- `getSentEmailsFromGmail` over the listed sent messages. -/
def getSentEmailsFromGmail (now : String) (parseIso : String → String)
    (msgs : List RawMessage) : List SentEmail :=
  msgs.filterMap (convertSent now parseIso)

-- --- Batch Classifier (`analyzeBatchEmailImportanceWithAISDK`) ---

/-- Control flow of `analyzeBatchEmailImportanceWithAISDK`: an empty input
returns `[]` before anything else; a missing API key then throws a
configuration error; otherwise the outcome of the single batched
service call (`aiResult`) is returned (success or wrapped failure). -/
def analyzeBatchEmailImportanceWithAISDK (apiKeySet : Bool)
    (aiResult : Except Unit (List BatchAnalyzedEmail)) (emails : List Email) :
    Except Unit (List BatchAnalyzedEmail) :=
  if emails.length = 0 then .ok []
  else if !apiKeySet then .error ()
  else aiResult

-- --- Triage reconcile loop ---

/-- `new Map(fetchedEmails.map(e => [e.id, e])).get(id)`: later entries of
the array overwrite earlier ones with the same key. -/
def fetchedEmailsMapGet (fetchedEmails : List Email) (id : String) : Option Email :=
  fetchedEmails.reverse.find? (fun email => email.id == id)

/-- Body shortening used for needs-response entries:
`body.substring(0, 1000)` plus `"..."` exactly when `body.length > 1000`. -/
def truncBody (body : String) : String :=
  strTake body 1000 ++ (if 1000 < body.length then "..." else "")

/-- Display entry pushed for a verdict whose email was found. -/
def displayOfMatched (originalEmail : Email) (analysis : BatchAnalyzedEmail) :
    DisplayAnalyzedEmail :=
  { id := originalEmail.id
    «from» := originalEmail.«from»
    subject := originalEmail.subject
    importance := analysis.importance
    reason := analysis.reason
    needs_response := analysis.needs_response
    time_sensitive := analysis.time_sensitive
    topics := analysis.topics }

/-- Display entry pushed for an orphan verdict (no matching fetched email). -/
def orphanDisplay (analysis : BatchAnalyzedEmail) : DisplayAnalyzedEmail :=
  { id := analysis.emailId
    «from» := "Unknown (AI Mismatch)"
    subject := "Unknown (AI Mismatch)"
    importance := analysis.importance
    reason := analysis.reason ++ " (Original email not found for this ID in fetched batch)"
    needs_response := analysis.needs_response
    time_sensitive := analysis.time_sensitive
    topics := analysis.topics }

/-- Needs-response entry: every field of the original email, with the body
shortened, plus the verdict and the response-match result. -/
def mkNeedsResponse (originalEmail : Email) (analysis : BatchAnalyzedEmail)
    (sentEmails : List SentEmail) : AnalyzedEmail :=
  { toEmail := { originalEmail with body := truncBody originalEmail.body }
    analysis := analysis
    already_responded := isPreviouslyResponded originalEmail sentEmails }

/-- The `for (const analysis of batchAnalysisResults)` loop: builds the
needs-response list and the display list in verdict order (appending at
the end of the loop arrays is cons in this head-first recursion). -/
def reconcile (fetchedEmails : List Email) (sentEmails : List SentEmail) :
    List BatchAnalyzedEmail → List AnalyzedEmail × List DisplayAnalyzedEmail
  | [] => ([], [])
  | analysis :: rest =>
    let r := reconcile fetchedEmails sentEmails rest
    match fetchedEmailsMapGet fetchedEmails analysis.emailId with
    | some originalEmail =>
      if analysis.needs_response then
        (mkNeedsResponse originalEmail analysis sentEmails :: r.1,
         displayOfMatched originalEmail analysis :: r.2)
      else (r.1, displayOfMatched originalEmail analysis :: r.2)
    | none => (r.1, orphanDisplay analysis :: r.2)

-- --- Ranker (`sortedEmails`) ---

/-- `importanceOrder = \x7b high: 0, medium: 1, low: 2 \x7d`. -/
def importanceOrder : Importance → Nat
  | .high => 0
  | .medium => 1
  | .low => 2

/-- The comparator passed to `[...needsResponseEmails].sort(...)`.  The
source's `?? false` / `?? "low"` fallbacks are identities here because
`analysis` is always present on an `AnalyzedEmail`. -/
def emailCompare (a b : AnalyzedEmail) : Int :=
  if a.already_responded != b.already_responded then
    if a.already_responded then 1 else -1
  else if a.analysis.time_sensitive != b.analysis.time_sensitive then
    if a.analysis.time_sensitive then -1 else 1
  else (importanceOrder a.analysis.importance : Int) - (importanceOrder b.analysis.importance : Int)

/-- Stable insertion with respect to `emailCompare`: a new element goes
after every element it does not strictly precede. -/
def sortInsert (x : AnalyzedEmail) : List AnalyzedEmail → List AnalyzedEmail
  | [] => [x]
  | y :: ys => if emailCompare x y < 0 then x :: y :: ys else y :: sortInsert x ys

/-- `Array.prototype.sort` with the comparator above.  The JS sort is
guaranteed stable with a consistent comparator, so it is modelled as a
stable insertion sort processing the input in order. -/
def sortedEmails (l : List AnalyzedEmail) : List AnalyzedEmail :=
  l.foldl (fun acc x => sortInsert x acc) []

/-- Modelled from the spec words for the ranking: primary key
`alreadyResponded` ascending, secondary key `timeSensitive` descending,
tertiary key `importance` in severity order high, medium, low. -/
def rankKey (e : AnalyzedEmail) : Nat × Nat × Nat :=
  ((if e.already_responded then 1 else 0),
   (if e.analysis.time_sensitive then 0 else 1),
   importanceOrder e.analysis.importance)

/-- Strict lexicographic comparison of rank keys. -/
def rankLt (a b : AnalyzedEmail) : Prop :=
  (rankKey a).1 < (rankKey b).1 ∨
    ((rankKey a).1 = (rankKey b).1 ∧
      ((rankKey a).2.1 < (rankKey b).2.1 ∨
        ((rankKey a).2.1 = (rankKey b).2.1 ∧ (rankKey a).2.2 < (rankKey b).2.2)))

instance (a b : AnalyzedEmail) : Decidable (rankLt a b) := by
  unfold rankLt
  infer_instance

/-- Stable insertion with respect to the spec ranking. -/
def specInsert (x : AnalyzedEmail) : List AnalyzedEmail → List AnalyzedEmail
  | [] => [x]
  | y :: ys => if rankLt x y then x :: y :: ys else y :: specInsert x ys

/-- Stable sort by the spec ranking (ties keep input order). -/
def specRankSort (l : List AnalyzedEmail) : List AnalyzedEmail :=
  l.foldl (fun acc x => specInsert x acc) []

-- --- Report rendering ---

/-- Importance enum value as its source string. -/
def importanceName : Importance → String
  | .high => "high"
  | .medium => "medium"
  | .low => "low"

/-- JS `s.toUpperCase()`. -/
def ucStr (s : String) : String := ⟨s.data.map Char.toUpper⟩

/-- JS `topics.join(", ")`. -/
def joinComma : List String → String
  | [] => ""
  | [s] => s
  | s :: rest => s ++ ", " ++ joinComma rest

/-- Banner line of fifty equals signs. -/
def bannerLine : String := ⟨List.replicate 50 '='⟩

/-- Divider line of fifty dashes. -/
def dividerLine : String := ⟨List.replicate 50 '-'⟩

/-- Report banner with the generation timestamp. -/
def reportHeader (now : String) : String :=
  bannerLine ++ "\nEMAILS REQUIRING RESPONSE\nGenerated on: "
    ++ now ++ "\n" ++ bannerLine ++ "\n\n"

/-- Per-entry block of the plain-text report. -/
def reportEntry (email : AnalyzedEmail) : String :=
  "Subject: " ++ email.subject ++ "\n" ++
  "From: " ++ email.«from» ++ "\n" ++
  "Received: " ++ email.receivedDateTime ++ "\n" ++
  "Importance: " ++ ucStr (importanceName email.analysis.importance) ++ "\n" ++
  "Time Sensitive: " ++ (if email.analysis.time_sensitive then "YES" else "No") ++ "\n" ++
  "Topics: " ++ joinComma email.analysis.topics ++ "\n" ++
  "Reason: " ++ email.analysis.reason ++ "\n" ++
  (if email.already_responded then "STATUS: ✅ ALREADY RESPONDED\n" else "") ++
  "Preview: " ++ strTake email.body 300 ++ "...\n\n" ++
  dividerLine ++ "\n\n"

/-- The whole report string. -/
def buildReport (now : String) (sortedList : List AnalyzedEmail) : String :=
  reportHeader now ++
    (if sortedList.length > 0 then String.join (sortedList.map reportEntry)
     else "No emails requiring immediate response were found.\n\n")

-- --- Triage Cache & Ranker (`GET /analyze-emails`) ---

/-- The two KV slots (`gmail_fetched_emails_v1`, `gmail_analysis_results_v1`).
`none` is an absent or expired key. -/
structure CacheState where
  emailSlot : Option (List Email)
  verdictSlot : Option (List BatchAnalyzedEmail)
deriving DecidableEq, Repr

/-- Per-request environment of the route: the query parameter, whether each
KV operation succeeds (a `false` is a thrown `kvError`, always caught by
the route), and the outcomes of the external calls.  `now` abstracts
`new Date().toISOString()` (the route takes several timestamps within one
request; they are identified here). -/
structure TriageEnv where
  refreshParam : Option String
  readEmailOk : Bool
  writeEmailOk : Bool
  readVerdictOk : Bool
  writeVerdictOk : Bool
  gmailResult : Except Unit (List Email)
  apiKeySet : Bool
  aiResult : Except Unit (List BatchAnalyzedEmail)
  sentResult : Except Unit (List SentEmail)
  now : String

/-- Observable actions of one triage request, in order. -/
inductive TriageEv where
  | readEmailCache
  | fetchGmail
  | putEmailCache (emails : List Email)
  | readVerdictCache
  | classifyCall (emails : List Email)
  | putVerdictCache (verdicts : List BatchAnalyzedEmail)
  | fetchSent
deriving DecidableEq, Repr

/-- Whether an event is an invocation of the batch classifier. -/
def TriageEv.isClassify : TriageEv → Bool
  | .classifyCall _ => true
  | _ => false

/-- JSON body of a successful response.  `num_emails := none` models the
field being absent from the returned object (the zero-emails literal at
the end of the route omits it). -/
structure TriageJson where
  last_updated : String
  needs_response_emails : List AnalyzedEmail
  report : String
  analyzed_emails : List DisplayAnalyzedEmail
  num_emails : Option Nat
deriving DecidableEq, Repr

/-- Route outcome: a JSON success or the catch-all 500 error. -/
inductive TriageResult where
  | ok (json : TriageJson)
  | err
deriving DecidableEq, Repr

/-- Result, final KV state and event trace of one request. -/
structure TriageOutcome where
  result : TriageResult
  state : CacheState
  trace : List TriageEv
deriving DecidableEq, Repr

/-- `const forceRefresh = c.req.query("refresh") === "true"`. -/
def forceRefreshOf (env : TriageEnv) : Bool := env.refreshParam == some "true"

/-- Tail of the route after both caches are settled: the zero-email early
return (whose literal has no `num_emails`), else sent-mail fetch,
reconcile, rank, report, full output. -/
def triageFinish (env : TriageEnv) (st : CacheState) (tr : List TriageEv)
    (fetchedEmails : List Email) (batchAnalysisResults : List BatchAnalyzedEmail) :
    TriageOutcome :=
  if fetchedEmails.length = 0 then
    { result := .ok
        { last_updated := env.now
          needs_response_emails := []
          report := "No emails fetched to analyze."
          analyzed_emails := []
          num_emails := none }
      state := st
      trace := tr }
  else
    match env.sentResult with
    | .error _ => { result := .err, state := st, trace := tr ++ [.fetchSent] }
    | .ok sentEmails =>
      let pair := reconcile fetchedEmails sentEmails batchAnalysisResults
      let sorted := sortedEmails pair.1
      { result := .ok
          { last_updated := env.now
            needs_response_emails := sorted
            report := buildReport env.now sorted
            analyzed_emails := pair.2
            num_emails := some fetchedEmails.length }
        state := st
        trace := tr ++ [.fetchSent] }

/-- Verdict-cache stage: `shouldFetchAnalysisFresh = forceRefresh ||
!fetchedEmailsCameFromCache`; consult the verdict slot only when not
fresh (a failed read is caught and treated as a miss); otherwise, and on
a miss, call the classifier and store its result (a failed write is
caught and ignored). -/
def triageAfterEmails (env : TriageEnv) (st : CacheState) (tr : List TriageEv)
    (fetchedEmails : List Email) (fetchedEmailsCameFromCache : Bool) : TriageOutcome :=
  let shouldFetchAnalysisFresh := forceRefreshOf env || !fetchedEmailsCameFromCache
  let tr1 := if !shouldFetchAnalysisFresh then tr ++ [.readVerdictCache] else tr
  let cachedAnalysis : Option (List BatchAnalyzedEmail) :=
    if !shouldFetchAnalysisFresh then (if env.readVerdictOk then st.verdictSlot else none)
    else none
  match cachedAnalysis with
  | some batch => triageFinish env st tr1 fetchedEmails batch
  | none =>
    match analyzeBatchEmailImportanceWithAISDK env.apiKeySet env.aiResult fetchedEmails with
    | .error _ =>
      { result := .err, state := st, trace := tr1 ++ [.classifyCall fetchedEmails] }
    | .ok batch =>
      let st2 := if env.writeVerdictOk then { st with verdictSlot := some batch } else st
      triageFinish env st2 (tr1 ++ [.classifyCall fetchedEmails, .putVerdictCache batch])
        fetchedEmails batch

/-- Value obtained by the email-cache stage: `none` when the read is
skipped (`forceRefresh`), throws, or misses. -/
def cachedEmailsRead (env : TriageEnv) (st : CacheState) : Option (List Email) :=
  if forceRefreshOf env then none else (if env.readEmailOk then st.emailSlot else none)

/-- `GET /analyze-emails`: email-cache stage (read skipped under
`forceRefresh`, a failed read caught and treated as a miss), Gmail fetch
and cache write on a miss (a failed write caught and ignored), then the
verdict stage. -/
def triage (env : TriageEnv) (st : CacheState) : TriageOutcome :=
  let force := forceRefreshOf env
  let tr0 : List TriageEv := if force then [] else [.readEmailCache]
  match cachedEmailsRead env st with
  | some fetchedEmails => triageAfterEmails env st tr0 fetchedEmails true
  | none =>
    match env.gmailResult with
    | .error _ => { result := .err, state := st, trace := tr0 ++ [.fetchGmail] }
    | .ok emailsFromGmail =>
      let st1 := if env.writeEmailOk then { st with emailSlot := some emailsFromGmail } else st
      triageAfterEmails env st1 (tr0 ++ [.fetchGmail, .putEmailCache emailsFromGmail])
        emailsFromGmail false

/-- The email set a request works on: the cached set on a usable hit, else
the Gmail fetch result. -/
def currentEmails (env : TriageEnv) (st : CacheState) : List Email :=
  match cachedEmailsRead env st with
  | some v => v
  | none =>
    match env.gmailResult with
    | .ok es => es
    | .error _ => []

/-- Projection: the `analyzed_emails` field of a successful result. -/
def TriageResult.analyzedOf : TriageResult → Option (List DisplayAnalyzedEmail)
  | .ok j => some j.analyzed_emails
  | .err => none

/-- Projection: the `needs_response_emails` field of a successful result. -/
def TriageResult.needsOf : TriageResult → Option (List AnalyzedEmail)
  | .ok j => some j.needs_response_emails
  | .err => none

/-- Projection: the `num_emails` field of a successful result (`some none`
is a success whose object has no `num_emails`). -/
def TriageResult.numEmailsOf : TriageResult → Option (Option Nat)
  | .ok j => some j.num_emails
  | .err => none

/-- The same environment with every KV operation succeeding. -/
def healthyEnv (env : TriageEnv) : TriageEnv :=
  { env with readEmailOk := true, writeEmailOk := true, readVerdictOk := true,
             writeVerdictOk := true }

/-- The cache state as seen through the failing reads of `env`: a slot whose
read throws behaves as an absent slot. -/
def maskedState (env : TriageEnv) (st : CacheState) : CacheState :=
  { emailSlot := if env.readEmailOk then st.emailSlot else none
    verdictSlot := if env.readVerdictOk then st.verdictSlot else none }

-- --- `POST /delete/:id` ---

/-- Responses of the delete route (the 404/403/500 provider mappings are
collapsed into `trashFailed`; the cache is untouched on all of them). -/
inductive DeleteResponse where
  | success (message : String)
  | badRequest
  | trashFailed
deriving DecidableEq, Repr

/-- Environment of one delete request: the path parameter, whether the
provider trash call succeeds, and whether each KV operation succeeds. -/
structure DeleteEnv where
  emailId : String
  trashOk : Bool
  readEmailOk : Bool
  writeEmailOk : Bool
  readVerdictOk : Bool
  writeVerdictOk : Bool
deriving DecidableEq, Repr

/-- Cache-update block after a successful trash.  A failing email-slot read
or write is caught by the outer catch, skipping the rest; the verdict
update only runs when the email filter removed something and its put
succeeded; its own failures are caught by the inner catch. -/
def deleteCacheUpdate (env : DeleteEnv) (st : CacheState) : CacheState :=
  if !env.readEmailOk then st
  else
    match st.emailSlot with
    | none => st
    | some cachedEmails =>
      let updatedCachedEmails := cachedEmails.filter (fun email => !(email.id == env.emailId))
      if updatedCachedEmails.length < cachedEmails.length then
        if !env.writeEmailOk then st
        else
          let st1 := { st with emailSlot := some updatedCachedEmails }
          if !env.readVerdictOk then st1
          else
            match st1.verdictSlot with
            | none => st1
            | some cachedAnalysis =>
              let updatedAnalysisResults :=
                cachedAnalysis.filter (fun analysis => !(analysis.emailId == env.emailId))
              if updatedAnalysisResults.length < cachedAnalysis.length then
                if env.writeVerdictOk then { st1 with verdictSlot := some updatedAnalysisResults }
                else st1
              else st1
      else st

/-- `POST /delete/:id`: parameter guard, provider trash call, then the
cache-update block whose failures never affect the response. -/
def deleteRoute (env : DeleteEnv) (st : CacheState) : DeleteResponse × CacheState :=
  if env.emailId == "" then (.badRequest, st)
  else if !env.trashOk then (.trashFailed, st)
  else
    (.success ("Email with ID: " ++ env.emailId ++ " successfully moved to trash. Cache updated."),
     deleteCacheUpdate env st)

-- --- Concrete instances used by closed statements ---

/-- Minimal inbound email with the fields the filter and triage inspect. -/
def mkEmail (id subject fromStr body : String) : Email :=
  { id := id
    messageId := ""
    threadId := "th"
    subject := subject
    «from» := fromStr
    «to» := []
    cc := []
    receivedDateTime := "2024-01-01T00:00:00.000Z"
    body := body
    snippet := ""
    headers := [] }

/-- Minimal classification verdict. -/
def mkVerdict (emailId reason : String) (needs ts : Bool) (imp : Importance) :
    BatchAnalyzedEmail :=
  { emailId := emailId
    importance := imp
    reason := reason
    needs_response := needs
    time_sensitive := ts
    topics := [] }

/-- Triage environment with every external call succeeding trivially. -/
def baseTriageEnv : TriageEnv :=
  { refreshParam := none
    readEmailOk := true
    writeEmailOk := true
    readVerdictOk := true
    writeVerdictOk := true
    gmailResult := .ok []
    apiKeySet := true
    aiResult := .ok []
    sentResult := .ok []
    now := "2024-01-02T00:00:00.000Z" }

/-- Base email of the ranking examples. -/
def rankedBase : Email := mkEmail "e" "s" "f" "b"

/-- Ranked entry with the given key fields. -/
def mkRank (r ts : Bool) (imp : Importance) : AnalyzedEmail :=
  { toEmail := rankedBase
    analysis := mkVerdict "e" "" true ts imp
    already_responded := r }

/-- Not-yet-responded, not time-sensitive, low importance. -/
def exampleFresh : AnalyzedEmail := mkRank false false .low

/-- Already-responded, time-sensitive, high importance. -/
def exampleResponded : AnalyzedEmail := mkRank true true .high

/-- Inbound email whose `from` field is empty (extracted sender is empty). -/
def emailNoSender : Email := mkEmail "e1" "" "" ""

/-- Sent summary listing the empty string among its recipients. -/
def sentEmptyRecipient : SentEmail :=
  { id := "s1", subject := "", recipients := [""], sentDateTime := "" }

/-- Inbound email with a plain (non-angle-bracket) sender. -/
def emailPlain : Email := mkEmail "e2" "Hello there" "a@x.com" ""

/-- Sent summary whose subject is empty. -/
def sentBlankSubject : SentEmail :=
  { id := "s2", subject := "", recipients := ["a@x.com"], sentDateTime := "" }

/-- Inbound email with empty `from` and a nonempty subject. -/
def emailNoSender2 : Email := mkEmail "e3" "quarterly numbers" "" ""

/-- Sent summary with an empty subject and the empty string as recipient. -/
def sentBlank2 : SentEmail :=
  { id := "s3", subject := "", recipients := [""], sentDateTime := "" }

/-- Inbound email used by the triage scenarios. -/
def c1Email : Email := mkEmail "g1" "subj" "sender@x.com" "hello body"

/-- Verdict matching `c1Email`. -/
def c1Verdict : BatchAnalyzedEmail := mkVerdict "g1" "rsn" true false .medium

/-- Forced-refresh environment whose Gmail fetch returns `c1Email` and whose
classifier returns `c1Verdict`. -/
def c1Env : TriageEnv :=
  { baseTriageEnv with refreshParam := some "true", gmailResult := .ok [c1Email],
                       aiResult := .ok [c1Verdict] }

/-- Empty cache. -/
def c1St : CacheState := { emailSlot := none, verdictSlot := none }

/-- Cache holding `c1Email` and its verdict. -/
def c1HitSt : CacheState :=
  { emailSlot := some [c1Email], verdictSlot := some [c1Verdict] }

/-- Email targeted by the delete scenario. -/
def targetEmail : Email := mkEmail "del1" "s1" "f1" ""

/-- Email that survives the delete scenario. -/
def keepEmail : Email := mkEmail "keep1" "s2" "f2" ""

/-- Delete environment with every operation succeeding. -/
def delEnvW : DeleteEnv :=
  { emailId := "del1", trashOk := true, readEmailOk := true, writeEmailOk := true,
    readVerdictOk := true, writeVerdictOk := true }

/-- Cache holding both emails and a verdict for each. -/
def delStW : CacheState :=
  { emailSlot := some [targetEmail, keepEmail]
    verdictSlot := some [mkVerdict "del1" "r1" true false .high,
                         mkVerdict "keep1" "r2" false false .low] }

/-- Two distinct cached entries sharing the id `dup`. -/
def dupEmailA : Email := mkEmail "dup" "first" "f" ""

/-- Second cached entry with the id `dup`. -/
def dupEmailB : Email := mkEmail "dup" "second" "f" ""

/-- Delete environment aimed at the duplicated id. -/
def dupEnv : DeleteEnv :=
  { emailId := "dup", trashOk := true, readEmailOk := true, writeEmailOk := true,
    readVerdictOk := true, writeVerdictOk := true }

/-- Cache whose email array holds the id `dup` twice. -/
def dupSt : CacheState := { emailSlot := some [dupEmailA, dupEmailB], verdictSlot := none }

/-- Triage environment in which every KV operation fails. -/
def failEnv : TriageEnv :=
  { baseTriageEnv with readEmailOk := false, writeEmailOk := false,
                       readVerdictOk := false, writeVerdictOk := false }

/-- Delete environment in which every KV operation fails after the trash. -/
def delFailEnv : DeleteEnv :=
  { emailId := "d1", trashOk := true, readEmailOk := false, writeEmailOk := false,
    readVerdictOk := false, writeVerdictOk := false }

/-- Forced-refresh environment whose Gmail fetch returns no messages. -/
def c8Env : TriageEnv := { baseTriageEnv with refreshParam := some "true" }

/-- Empty cache for the zero-email run. -/
def c8St : CacheState := { emailSlot := none, verdictSlot := none }

/-- Provider message carrying nothing but its ids. -/
def rawMsgBare : RawMessage :=
  { listId := some "m1", id := some "m1", threadId := some "t1", headers := none,
    parts := none, bodyData := none, mimeType := none, snippet := none }

/-- Email built from `rawMsgBare` at fetch time `NOW`. -/
def emailBare : Email :=
  { id := "m1", messageId := "", threadId := "t1", subject := "No Subject",
    «from» := "Unknown Sender", «to» := [], cc := [], receivedDateTime := "NOW",
    body := "", snippet := "", headers := [] }

/-- Verdict whose `emailId` matches no fetched email. -/
def orphanV : BatchAnalyzedEmail := mkVerdict "ghost" "r" true false .low

/-- Cache with an empty email array but a nonempty verdict array. -/
def c4aSt : CacheState := { emailSlot := some [], verdictSlot := some [orphanV] }

/-- Forced-refresh environment producing one email and one orphan verdict. -/
def c4bEnv : TriageEnv :=
  { baseTriageEnv with refreshParam := some "true", gmailResult := .ok [c1Email],
                       aiResult := .ok [orphanV] }

/-- Body of exactly 1003 characters that equals its own shortening. -/
def bigBody : String := ⟨List.replicate 1000 'a' ++ "...".data⟩

/-- Email carrying `bigBody`. -/
def bigEmail : Email := mkEmail "big1" "s" "f" bigBody

/-- Needs-response verdict for `bigEmail`. -/
def bigVerdict : BatchAnalyzedEmail := mkVerdict "big1" "r" true false .low

/-- Forced-refresh environment fetching `bigEmail`. -/
def c9Env : TriageEnv :=
  { baseTriageEnv with refreshParam := some "true", gmailResult := .ok [bigEmail],
                       aiResult := .ok [bigVerdict] }

-- ===================== Theorems =====================

-- Helper lemmas

/-- Every string contains the empty string (`"".includes` semantics). -/
lemma strIncl_empty (hay : String) : strIncl hay "" = true := by
  unfold strIncl
  cases hd : hay.data <;> simp [hd, List.tails, List.isPrefixOf]

/-- Unfolding of the loop body to a propositional description. -/
lemma sentMatches_iff (email : Email) (s : SentEmail) :
    sentMatches email s = true ↔
      (senderOf email.«from» ∈ s.recipients ∧
        (cleanSubject email.subject = cleanSubject s.subject ∨
         strIncl (cleanSubject email.subject) (cleanSubject s.subject) = true ∨
         strIncl (cleanSubject s.subject) (cleanSubject email.subject) = true)) := by
  unfold sentMatches
  simp [List.elem_iff, Bool.and_eq_true, Bool.or_eq_true, beq_iff_eq, or_assoc]

/-- C2 (amended): the response-match filter returns true if and only if the
extracted sender address is nonempty and some sent summary lists it among
its recipients and has an equal, contained or containing normalized
subject.  (The nonemptiness guard is the correction: the source returns
false outright on a falsy sender.) -/
theorem C2_responseMatch_iff (email : Email) (sentEmails : List SentEmail) :
    isPreviouslyResponded email sentEmails = true ↔
      (senderOf email.«from» ≠ "" ∧ respondedSpec email sentEmails) := by
  unfold isPreviouslyResponded respondedSpec
  by_cases h : senderOf email.«from» = ""
  · simp [h]
  · have hb : (senderOf email.«from» == "") = false := by simp [h]
    simp only [hb, Bool.false_eq_true, if_false, List.any_eq_true, ne_eq, h,
      not_false_iff, true_and]
    constructor
    · rintro ⟨s, hs, hm⟩
      exact ⟨s, hs, (sentMatches_iff email s).mp hm⟩
    · rintro ⟨s, hs, hm⟩
      exact ⟨s, hs, (sentMatches_iff email s).mpr hm⟩

/-- C2 counterexample: with an empty `from` field the extracted sender is
the empty string; a sent summary listing the empty string among its
recipients with an equal normalized subject satisfies the claimed
condition, yet the filter returns false. -/
theorem C2_counterexample :
    isPreviouslyResponded emailNoSender [sentEmptyRecipient] = false ∧
      respondedSpec emailNoSender [sentEmptyRecipient] := by
  constructor
  · decide
  · exact ⟨sentEmptyRecipient, by decide, by decide, Or.inl (by decide)⟩

/-- C10 (amended): a sent summary whose subject normalizes to the empty
string matches every inbound email whose (nonempty) extracted sender
address it lists, whatever the inbound subject. -/
theorem C10_emptySubjectMatchesAll (email : Email) (sentEmail : SentEmail)
    (sentEmails : List SentEmail)
    (hmem : sentEmail ∈ sentEmails)
    (hsubj : cleanSubject sentEmail.subject = "")
    (hrecip : senderOf email.«from» ∈ sentEmail.recipients)
    (hsender : senderOf email.«from» ≠ "") :
    isPreviouslyResponded email sentEmails = true := by
  unfold isPreviouslyResponded
  have hb : (senderOf email.«from» == "") = false := by simp [hsender]
  simp only [hb, Bool.false_eq_true, if_false, List.any_eq_true]
  refine ⟨sentEmail, hmem, (sentMatches_iff email sentEmail).mpr ⟨hrecip, ?_⟩⟩
  exact Or.inr (Or.inl (hsubj ▸ strIncl_empty (cleanSubject email.subject)))

/-- C10 witness: a blank-subject sent summary to `a@x.com` marks an email
from `a@x.com` as already responded regardless of its subject. -/
theorem C10_witness : isPreviouslyResponded emailPlain [sentBlankSubject] = true :=
  C10_emptySubjectMatchesAll emailPlain sentBlankSubject [sentBlankSubject]
    (by decide) (by decide) (by decide) (by decide)

/-- C10 counterexample: when the extracted sender address is empty the
filter returns false even though the blank-subject summary lists that
(empty) address among its recipients. -/
theorem C10_counterexample :
    cleanSubject sentBlank2.subject = "" ∧
      senderOf emailNoSender2.«from» ∈ sentBlank2.recipients ∧
      isPreviouslyResponded emailNoSender2 [sentBlank2] = false := by
  refine ⟨by decide, by decide, by decide⟩

/-- The comparator orders `a` strictly before `b` exactly when the spec rank
key of `a` is lexicographically smaller. -/
lemma emailCompare_lt_iff (a b : AnalyzedEmail) :
    emailCompare a b < 0 ↔ rankLt a b := by
  cases ha : a.already_responded <;> cases hb : b.already_responded <;>
    cases hta : a.analysis.time_sensitive <;> cases htb : b.analysis.time_sensitive <;>
      cases hia : a.analysis.importance <;> cases hib : b.analysis.importance <;>
        simp [emailCompare, rankLt, rankKey, importanceOrder, ha, hb, hta, htb, hia, hib]

/-- The source insertion agrees with the spec insertion. -/
lemma sortInsert_eq_specInsert (x : AnalyzedEmail) (l : List AnalyzedEmail) :
    sortInsert x l = specInsert x l := by
  induction l with
  | nil => rfl
  | cons y ys ih => simp [sortInsert, specInsert, emailCompare_lt_iff, ih]

/-- Equal rank keys are never strictly ordered. -/
lemma rankLt_irrefl_of_eq {a b : AnalyzedEmail} (h : rankKey a = rankKey b) :
    ¬ rankLt a b := by
  unfold rankLt
  rw [h]
  omega

/-- C3: the needs-response ranking is the stable sort by the spec keys
(already-responded ascending, time-sensitive descending, importance in
severity order); the spec example ranks the fresh low-importance entry
before the already-responded urgent one; a tied pair keeps its input
order. -/
theorem C3_ranking :
    (∀ l : List AnalyzedEmail, sortedEmails l = specRankSort l) ∧
      sortedEmails [exampleResponded, exampleFresh] = [exampleFresh, exampleResponded] ∧
      (∀ a b : AnalyzedEmail, rankKey a = rankKey b → sortedEmails [a, b] = [a, b]) := by
  refine ⟨?_, by decide, ?_⟩
  · intro l
    unfold sortedEmails specRankSort
    have hfun : (fun (acc : List AnalyzedEmail) x => sortInsert x acc) =
        (fun acc x => specInsert x acc) := by
      funext acc x
      exact sortInsert_eq_specInsert x acc
    rw [hfun]
  · intro a b hk
    rw [show sortedEmails [a, b] = sortInsert b (sortInsert a []) from rfl]
    have hnb : ¬ rankLt b a := rankLt_irrefl_of_eq hk.symm
    have : emailCompare b a < 0 ↔ rankLt b a := emailCompare_lt_iff b a
    simp [sortInsert, this, hnb]

/-- C3 witness: two identical entries keep their order. -/
theorem C3_witness :
    sortedEmails [exampleFresh, exampleFresh] = [exampleFresh, exampleFresh] :=
  C3_ranking.2.2 exampleFresh exampleFresh rfl

/-- A usable email-cache hit implies the read was not skipped. -/
lemma cachedEmailsRead_force_false {env : TriageEnv} {st : CacheState} {v : List Email}
    (h : cachedEmailsRead env st = some v) : forceRefreshOf env = false := by
  by_cases hf : forceRefreshOf env = true
  · simp [cachedEmailsRead, hf] at h
  · simpa using hf

/-- Email-cache hit path of `triage`. -/
lemma triage_hit {env : TriageEnv} {st : CacheState} {v : List Email}
    (h : cachedEmailsRead env st = some v) :
    triage env st = triageAfterEmails env st [TriageEv.readEmailCache] v true := by
  have hf := cachedEmailsRead_force_false h
  simp [triage, h, hf]

/-- Email-cache miss path of `triage` with a failing Gmail fetch. -/
lemma triage_miss_err {env : TriageEnv} {st : CacheState}
    (h : cachedEmailsRead env st = none) (hg : env.gmailResult = .error ()) :
    triage env st =
      { result := .err, state := st,
        trace := (if forceRefreshOf env then [] else [TriageEv.readEmailCache]) ++
          [TriageEv.fetchGmail] } := by
  simp [triage, h, hg]

/-- Email-cache miss path of `triage` with a successful Gmail fetch. -/
lemma triage_miss_ok {env : TriageEnv} {st : CacheState} {es : List Email}
    (h : cachedEmailsRead env st = none) (hg : env.gmailResult = .ok es) :
    triage env st =
      triageAfterEmails env (if env.writeEmailOk then { st with emailSlot := some es } else st)
        ((if forceRefreshOf env then [] else [TriageEv.readEmailCache]) ++
          [TriageEv.fetchGmail, TriageEv.putEmailCache es])
        es false := by
  simp [triage, h, hg]

/-- Verdict-cache hit path of `triageAfterEmails`. -/
lemma after_hitVerdict {env : TriageEnv} {st : CacheState} {tr : List TriageEv}
    {fe : List Email} {b : List BatchAnalyzedEmail}
    (hf : forceRefreshOf env = false)
    (hread : (if env.readVerdictOk then st.verdictSlot else none) = some b) :
    triageAfterEmails env st tr fe true =
      triageFinish env st (tr ++ [TriageEv.readVerdictCache]) fe b := by
  simp [triageAfterEmails, hf, hread]

/-- Verdict-cache miss path of `triageAfterEmails` with a successful
classification. -/
lemma after_missVerdict_ok {env : TriageEnv} {st : CacheState} {tr : List TriageEv}
    {fe : List Email} {vs : List BatchAnalyzedEmail}
    (hf : forceRefreshOf env = false)
    (hread : (if env.readVerdictOk then st.verdictSlot else none) = none)
    (ha : analyzeBatchEmailImportanceWithAISDK env.apiKeySet env.aiResult fe = .ok vs) :
    triageAfterEmails env st tr fe true =
      triageFinish env (if env.writeVerdictOk then { st with verdictSlot := some vs } else st)
        (tr ++ [TriageEv.readVerdictCache] ++ [TriageEv.classifyCall fe, TriageEv.putVerdictCache vs])
        fe vs := by
  simp [triageAfterEmails, hf, hread, ha, List.append_assoc]

/-- Verdict-cache miss path of `triageAfterEmails` with a failing
classification. -/
lemma after_missVerdict_err {env : TriageEnv} {st : CacheState} {tr : List TriageEv}
    {fe : List Email}
    (hf : forceRefreshOf env = false)
    (hread : (if env.readVerdictOk then st.verdictSlot else none) = none)
    (ha : analyzeBatchEmailImportanceWithAISDK env.apiKeySet env.aiResult fe = .error ()) :
    triageAfterEmails env st tr fe true =
      { result := .err, state := st,
        trace := tr ++ [TriageEv.readVerdictCache] ++ [TriageEv.classifyCall fe] } := by
  simp [triageAfterEmails, hf, hread, ha, List.append_assoc]

/-- Fresh-analysis path of `triageAfterEmails` (freshly fetched emails) with
a successful classification. -/
lemma after_fresh_ok {env : TriageEnv} {st : CacheState} {tr : List TriageEv}
    {fe : List Email} {vs : List BatchAnalyzedEmail}
    (ha : analyzeBatchEmailImportanceWithAISDK env.apiKeySet env.aiResult fe = .ok vs) :
    triageAfterEmails env st tr fe false =
      triageFinish env (if env.writeVerdictOk then { st with verdictSlot := some vs } else st)
        (tr ++ [TriageEv.classifyCall fe, TriageEv.putVerdictCache vs]) fe vs := by
  simp [triageAfterEmails, ha]

/-- Fresh-analysis path of `triageAfterEmails` with a failing classification. -/
lemma after_fresh_err {env : TriageEnv} {st : CacheState} {tr : List TriageEv}
    {fe : List Email}
    (ha : analyzeBatchEmailImportanceWithAISDK env.apiKeySet env.aiResult fe = .error ()) :
    triageAfterEmails env st tr fe false =
      { result := .err, state := st, trace := tr ++ [TriageEv.classifyCall fe] } := by
  simp [triageAfterEmails, ha]

/-- The tail stage only ever appends the sent-mail fetch to the trace. -/
lemma finish_trace {env : TriageEnv} {st : CacheState} {tr : List TriageEv}
    {fe : List Email} {b : List BatchAnalyzedEmail} :
    ∃ suf, (triageFinish env st tr fe b).trace = tr ++ suf ∧
      TriageEv.readVerdictCache ∉ suf ∧ ∀ es, TriageEv.classifyCall es ∉ suf := by
  unfold triageFinish
  by_cases h0 : fe.length = 0
  · exact ⟨[], by simp [h0], by simp, by simp⟩
  · cases hs : env.sentResult with
    | error e => exact ⟨[TriageEv.fetchSent], by simp [h0, hs], by simp, by simp⟩
    | ok ss => exact ⟨[TriageEv.fetchSent], by simp [h0, hs], by simp, by simp⟩

/-- The tail stage does not change the cache state. -/
lemma finish_state {env : TriageEnv} {st : CacheState} {tr : List TriageEv}
    {fe : List Email} {b : List BatchAnalyzedEmail} :
    (triageFinish env st tr fe b).state = st := by
  unfold triageFinish
  by_cases h0 : fe.length = 0 <;> cases hs : env.sentResult <;> simp [h0, hs]

/-- Successful-response shape of the tail stage when the sent-mail fetch
succeeds. -/
lemma finish_shape {env : TriageEnv} {st : CacheState} {tr : List TriageEv}
    {fe : List Email} {b : List BatchAnalyzedEmail} {ss : List SentEmail}
    (hs : env.sentResult = .ok ss) :
    ∃ j, (triageFinish env st tr fe b).result = .ok j ∧
      j.num_emails = (if fe.length = 0 then none else some fe.length) ∧
      j.needs_response_emails =
        (if fe.length = 0 then [] else sortedEmails (reconcile fe ss b).1) ∧
      j.analyzed_emails = (if fe.length = 0 then [] else (reconcile fe ss b).2) := by
  unfold triageFinish
  by_cases h0 : fe.length = 0
  · exact ⟨{ last_updated := env.now, needs_response_emails := [],
             report := "No emails fetched to analyze.", analyzed_emails := [],
             num_emails := none },
      by simp [h0], by simp [h0], by simp [h0], by simp [h0]⟩
  · exact ⟨{ last_updated := env.now,
             needs_response_emails := sortedEmails (reconcile fe ss b).1,
             report := buildReport env.now (sortedEmails (reconcile fe ss b).1),
             analyzed_emails := (reconcile fe ss b).2,
             num_emails := some fe.length },
      by simp [h0, hs], by simp [h0], by simp [h0], by simp [h0]⟩

/-- The trace contains a verdict-cache read exactly when the read is reached:
no forced refresh and a usable email-cache hit. -/
lemma triage_trace_readVerdict (env : TriageEnv) (st : CacheState) :
    TriageEv.readVerdictCache ∈ (triage env st).trace ↔
      (forceRefreshOf env = false ∧ (cachedEmailsRead env st).isSome = true) := by
  cases hc : cachedEmailsRead env st with
  | some v =>
    have hf := cachedEmailsRead_force_false hc
    rw [triage_hit hc]
    cases hread : (if env.readVerdictOk then st.verdictSlot else none) with
    | some b =>
      rw [after_hitVerdict hf hread]
      obtain ⟨suf, htr, hnrv, hncl⟩ :=
        @finish_trace env st ([TriageEv.readEmailCache] ++ [TriageEv.readVerdictCache]) v b
      rw [htr]
      simp [hf]
    | none =>
      cases hab : analyzeBatchEmailImportanceWithAISDK env.apiKeySet env.aiResult v with
      | error e =>
        cases e
        rw [after_missVerdict_err hf hread hab]
        simp [hf]
      | ok vs =>
        rw [after_missVerdict_ok hf hread hab]
        obtain ⟨suf, htr, hnrv, hncl⟩ :=
          @finish_trace env (if env.writeVerdictOk then { st with verdictSlot := some vs } else st)
            ([TriageEv.readEmailCache] ++ [TriageEv.readVerdictCache] ++
              [TriageEv.classifyCall v, TriageEv.putVerdictCache vs]) v vs
        rw [htr]
        simp [hf]
  | none =>
    cases hg : env.gmailResult with
    | error e =>
      cases e
      rw [triage_miss_err hc hg]
      by_cases hff : forceRefreshOf env = true <;> simp [hff]
    | ok es =>
      rw [triage_miss_ok hc hg]
      cases hab : analyzeBatchEmailImportanceWithAISDK env.apiKeySet env.aiResult es with
      | error e =>
        cases e
        rw [after_fresh_err hab]
        by_cases hff : forceRefreshOf env = true <;> simp [hff]
      | ok vs =>
        rw [after_fresh_ok hab]
        obtain ⟨suf, htr, hnrv, hncl⟩ :=
          @finish_trace env
            (if env.writeVerdictOk then
              { (if env.writeEmailOk then { st with emailSlot := some es } else st) with
                  verdictSlot := some vs }
              else (if env.writeEmailOk then { st with emailSlot := some es } else st))
            (((if forceRefreshOf env then [] else [TriageEv.readEmailCache]) ++
              [TriageEv.fetchGmail, TriageEv.putEmailCache es]) ++
              [TriageEv.classifyCall es, TriageEv.putVerdictCache vs]) es vs
        rw [htr]
        by_cases hff : forceRefreshOf env = true <;> simp [hff, hnrv]

/-- On a usable email-cache hit, the verdict-cache read occurs before any
classifier invocation. -/
lemma triage_order_readVerdict (env : TriageEnv) (st : CacheState) {v : List Email}
    (hc : cachedEmailsRead env st = some v) :
    TriageEv.readVerdictCache ∈
      ((triage env st).trace.takeWhile (fun ev => !ev.isClassify)) := by
  have hf := cachedEmailsRead_force_false hc
  rw [triage_hit hc]
  cases hread : (if env.readVerdictOk then st.verdictSlot else none) with
  | some b =>
    rw [after_hitVerdict hf hread]
    obtain ⟨suf, htr, hnrv, hncl⟩ :=
      @finish_trace env st ([TriageEv.readEmailCache] ++ [TriageEv.readVerdictCache]) v b
    rw [htr]
    simp [List.takeWhile, TriageEv.isClassify]
  | none =>
    cases hab : analyzeBatchEmailImportanceWithAISDK env.apiKeySet env.aiResult v with
    | error e =>
      cases e
      rw [after_missVerdict_err hf hread hab]
      simp [List.takeWhile, TriageEv.isClassify]
    | ok vs =>
      rw [after_missVerdict_ok hf hread hab]
      obtain ⟨suf, htr, hnrv, hncl⟩ :=
        @finish_trace env (if env.writeVerdictOk then { st with verdictSlot := some vs } else st)
          ([TriageEv.readEmailCache] ++ [TriageEv.readVerdictCache] ++
            [TriageEv.classifyCall v, TriageEv.putVerdictCache vs]) v vs
      rw [htr]
      simp [List.takeWhile, TriageEv.isClassify]

/-- On an email-cache miss (or forced refresh), the verdict cache is never
read; the classifier runs on the freshly fetched set and its result is
written to the verdict slot. -/
lemma triage_fresh_classify (env : TriageEnv) (st : CacheState)
    (hc : cachedEmailsRead env st = none)
    {es : List Email} (hg : env.gmailResult = .ok es)
    {vs : List BatchAnalyzedEmail}
    (hab : analyzeBatchEmailImportanceWithAISDK env.apiKeySet env.aiResult es = .ok vs) :
    TriageEv.readVerdictCache ∉ (triage env st).trace ∧
      TriageEv.classifyCall es ∈ (triage env st).trace ∧
      TriageEv.putVerdictCache vs ∈ (triage env st).trace ∧
      (env.writeVerdictOk = true → (triage env st).state.verdictSlot = some vs) := by
  rw [triage_miss_ok hc hg, after_fresh_ok hab]
  obtain ⟨suf, htr, hnrv, hncl⟩ :=
    @finish_trace env
      (if env.writeVerdictOk then
        { (if env.writeEmailOk then { st with emailSlot := some es } else st) with
            verdictSlot := some vs }
        else (if env.writeEmailOk then { st with emailSlot := some es } else st))
      (((if forceRefreshOf env then [] else [TriageEv.readEmailCache]) ++
        [TriageEv.fetchGmail, TriageEv.putEmailCache es]) ++
        [TriageEv.classifyCall es, TriageEv.putVerdictCache vs]) es vs
  refine ⟨?_, ?_, ?_, ?_⟩
  · rw [htr]
    by_cases hff : forceRefreshOf env = true <;> simp [hff, hnrv]
  · rw [htr]
    simp
  · rw [htr]
    simp
  · intro hw
    rw [finish_state]
    by_cases hwe : env.writeEmailOk = true <;> simp [hw, hwe]

/-- C1: the verdict cache is consulted (read event present) exactly when
`forceRefresh` is false and the email set came from the email cache; on
such a hit the read occurs before any classifier invocation; on a miss or
forced refresh the verdict cache is bypassed, the classifier is invoked
over the freshly fetched set and its result is stored in the verdict
slot. -/
theorem C1_cacheCoherence (env : TriageEnv) (st : CacheState) :
    (TriageEv.readVerdictCache ∈ (triage env st).trace ↔
        (forceRefreshOf env = false ∧ (cachedEmailsRead env st).isSome = true)) ∧
      (∀ v, cachedEmailsRead env st = some v →
        TriageEv.readVerdictCache ∈
          ((triage env st).trace.takeWhile (fun ev => !ev.isClassify))) ∧
      (cachedEmailsRead env st = none →
        ∀ es, env.gmailResult = .ok es →
          ∀ vs, analyzeBatchEmailImportanceWithAISDK env.apiKeySet env.aiResult es = .ok vs →
            TriageEv.readVerdictCache ∉ (triage env st).trace ∧
              TriageEv.classifyCall es ∈ (triage env st).trace ∧
              TriageEv.putVerdictCache vs ∈ (triage env st).trace ∧
              (env.writeVerdictOk = true →
                (triage env st).state.verdictSlot = some vs)) :=
  ⟨triage_trace_readVerdict env st,
   fun _ hc => triage_order_readVerdict env st hc,
   fun hc _ hg _ hab => triage_fresh_classify env st hc hg hab⟩

/-- C1 witness: a cache-hit run reads the verdict cache before any
classification, and a forced-refresh run classifies fresh and stores. -/
theorem C1_witness :
    (TriageEv.readVerdictCache ∈
        ((triage baseTriageEnv c1HitSt).trace.takeWhile (fun ev => !ev.isClassify))) ∧
      (TriageEv.readVerdictCache ∉ (triage c1Env c1St).trace ∧
        TriageEv.classifyCall [c1Email] ∈ (triage c1Env c1St).trace ∧
        TriageEv.putVerdictCache [c1Verdict] ∈ (triage c1Env c1St).trace ∧
        (c1Env.writeVerdictOk = true →
          (triage c1Env c1St).state.verdictSlot = some [c1Verdict])) :=
  ⟨(C1_cacheCoherence baseTriageEnv c1HitSt).2.1 [c1Email] (by decide),
   (C1_cacheCoherence c1Env c1St).2.2 (by decide) [c1Email] rfl [c1Verdict] rfl⟩

/-- C5 (amended): after a successful delete whose id occurs in the cached
email array, every entry carrying that id is removed from the email slot
(all other entries kept in order; when exactly one entry carries the id,
the length drops by exactly one) and every verdict sharing the id is
removed from the verdict slot, all other verdicts kept. -/
theorem C5_deleteUpdatesBothCaches (env : DeleteEnv) (st : CacheState)
    (cached : List Email)
    (hid : env.emailId ≠ "") (htrash : env.trashOk = true)
    (hre : env.readEmailOk = true) (hwe : env.writeEmailOk = true)
    (hrv : env.readVerdictOk = true) (hwv : env.writeVerdictOk = true)
    (hslot : st.emailSlot = some cached)
    (hmem : ∃ e ∈ cached, e.id = env.emailId) :
    (deleteRoute env st).1 =
        DeleteResponse.success ("Email with ID: " ++ env.emailId ++
          " successfully moved to trash. Cache updated.") ∧
      (deleteRoute env st).2.emailSlot =
        some (cached.filter (fun e => !(e.id == env.emailId))) ∧
      (∀ e ∈ cached, e.id ≠ env.emailId →
        e ∈ cached.filter (fun e => !(e.id == env.emailId))) ∧
      (∀ e ∈ cached.filter (fun e => !(e.id == env.emailId)),
        e ∈ cached ∧ e.id ≠ env.emailId) ∧
      (cached.countP (fun e => e.id == env.emailId) = 1 →
        (cached.filter (fun e => !(e.id == env.emailId))).length + 1 = cached.length) ∧
      (deleteRoute env st).2.verdictSlot =
        st.verdictSlot.map (List.filter (fun a => !(a.emailId == env.emailId))) := by
  obtain ⟨es, vsl⟩ := st
  simp only [CacheState.mk.injEq] at hslot ⊢
  have hes : es = some cached := by simpa using hslot
  subst hes
  have hbeq : (env.emailId == "") = false := by simp [hid]
  have hlt : (cached.filter (fun e => !(e.id == env.emailId))).length < cached.length := by
    obtain ⟨e, he, heid⟩ := hmem
    rcases Nat.lt_or_ge ((cached.filter (fun e => !(e.id == env.emailId))).length)
      cached.length with hlt | hge
    · exact hlt
    · exfalso
      have hle := List.length_filter_le (fun e => !(e.id == env.emailId)) cached
      have heq : (cached.filter (fun e => !(e.id == env.emailId))).length = cached.length :=
        Nat.le_antisymm hle hge
      have hfe : cached.filter (fun e => !(e.id == env.emailId)) = cached :=
        (List.filter_sublist _).eq_of_length heq
      have hmf : e ∈ cached.filter (fun e => !(e.id == env.emailId)) := by
        rw [hfe]
        exact he
      have := (List.mem_filter.mp hmf).2
      simp [heid] at this
  have hupdate : (deleteRoute env ⟨some cached, vsl⟩).2 =
      { emailSlot := some (cached.filter (fun e => !(e.id == env.emailId))),
        verdictSlot := vsl.map (List.filter (fun a => !(a.emailId == env.emailId))) } := by
    cases hv : vsl with
    | none =>
      simp [deleteRoute, deleteCacheUpdate, hbeq, htrash, hre, hwe, hrv, hlt]
    | some va =>
      by_cases hvl : (va.filter (fun a => !(a.emailId == env.emailId))).length < va.length
      · simp [deleteRoute, deleteCacheUpdate, hbeq, htrash, hre, hwe, hrv, hwv, hlt, hvl]
      · have hle := List.length_filter_le (fun a => !(a.emailId == env.emailId)) va
        have heq : (va.filter (fun a => !(a.emailId == env.emailId))).length = va.length :=
          Nat.le_antisymm hle (Nat.le_of_not_lt hvl)
        have hfe : va.filter (fun a => !(a.emailId == env.emailId)) = va :=
          (List.filter_sublist _).eq_of_length heq
        simp [deleteRoute, deleteCacheUpdate, hbeq, htrash, hre, hwe, hrv, hlt, hvl, hfe]
  refine ⟨?_, ?_, ?_, ?_, ?_, ?_⟩
  · simp [deleteRoute, hbeq, htrash]
  · rw [hupdate]
  · intro e he hne
    exact List.mem_filter.mpr ⟨he, by simp [hne]⟩
  · intro e he
    have h := List.mem_filter.mp he
    exact ⟨h.1, by simpa using h.2⟩
  · intro hcount
    have h1 : cached.countP (fun e => e.id == env.emailId) =
        (cached.filter (fun e => e.id == env.emailId)).length :=
      List.countP_eq_length_filter _ _
    have htot := List.length_eq_length_filter_add
      (l := cached) (fun e => e.id == env.emailId)
    omega
  · rw [hupdate]

/-- C5 witness: deleting `del1` from a cache holding `del1` and `keep1`
removes exactly that email and its verdict, keeping the others. -/
theorem C5_witness :
    (deleteRoute delEnvW delStW).1 =
        DeleteResponse.success ("Email with ID: " ++ delEnvW.emailId ++
          " successfully moved to trash. Cache updated.") ∧
      (deleteRoute delEnvW delStW).2.emailSlot =
        some ([targetEmail, keepEmail].filter (fun e => !(e.id == delEnvW.emailId))) ∧
      (∀ e ∈ [targetEmail, keepEmail], e.id ≠ delEnvW.emailId →
        e ∈ [targetEmail, keepEmail].filter (fun e => !(e.id == delEnvW.emailId))) ∧
      (∀ e ∈ [targetEmail, keepEmail].filter (fun e => !(e.id == delEnvW.emailId)),
        e ∈ [targetEmail, keepEmail] ∧ e.id ≠ delEnvW.emailId) ∧
      ([targetEmail, keepEmail].countP (fun e => e.id == delEnvW.emailId) = 1 →
        ([targetEmail, keepEmail].filter (fun e => !(e.id == delEnvW.emailId))).length + 1 =
          [targetEmail, keepEmail].length) ∧
      (deleteRoute delEnvW delStW).2.verdictSlot =
        delStW.verdictSlot.map (List.filter (fun a => !(a.emailId == delEnvW.emailId))) :=
  C5_deleteUpdatesBothCaches delEnvW delStW [targetEmail, keepEmail]
    (by decide) rfl rfl rfl rfl rfl rfl ⟨targetEmail, by decide, rfl⟩

/-- C5 counterexample: with two cached entries sharing the deleted id, the
filter removes both, so the array length drops by two, not one. -/
theorem C5_counterexample :
    dupSt.emailSlot.map List.length = some 2 ∧
      dupEmailA.id = dupEnv.emailId ∧
      (deleteRoute dupEnv dupSt).2.emailSlot = some ([] : List Email) := by
  refine ⟨rfl, rfl, by decide⟩

/-- The result of the tail stage depends only on the email set, the verdict
batch, the sent-mail outcome, and the timestamp. -/
lemma finish_result_congr {env env' : TriageEnv} (st st' : CacheState)
    (tr tr' : List TriageEv) (fe : List Email) (b : List BatchAnalyzedEmail)
    (hs : env.sentResult = env'.sentResult) (hn : env.now = env'.now) :
    (triageFinish env st tr fe b).result = (triageFinish env' st' tr' fe b).result := by
  unfold triageFinish
  by_cases h0 : fe.length = 0
  · simp [h0, hn]
  · cases hsr : env.sentResult with
    | error e =>
      have hsr' : env'.sentResult = .error e := by rw [← hs]; exact hsr
      simp [h0, hsr, hsr']
    | ok ss =>
      have hsr' : env'.sentResult = .ok ss := by rw [← hs]; exact hsr
      simp [h0, hsr, hsr', hn]

/-- Cache-failure masking: the response is the same as the one computed with
every KV operation succeeding against the state seen through the failing
reads (a failed read behaves as a miss, a failed write changes nothing
observable). -/
lemma triage_result_mask (env : TriageEnv) (st : CacheState) :
    (triage env st).result = (triage (healthyEnv env) (maskedState env st)).result := by
  cases hc : cachedEmailsRead env st with
  | some v =>
    have hf := cachedEmailsRead_force_false hc
    have hf' : forceRefreshOf (healthyEnv env) = false := hf
    have hc2 : cachedEmailsRead (healthyEnv env) (maskedState env st) = some v := by
      unfold cachedEmailsRead at hc ⊢
      simpa [healthyEnv, maskedState, forceRefreshOf] using hc
    rw [triage_hit hc, triage_hit hc2]
    cases hread : (if env.readVerdictOk then st.verdictSlot else none) with
    | some b =>
      have hread2 : (if (healthyEnv env).readVerdictOk then
          (maskedState env st).verdictSlot else none) = some b := by
        simpa [healthyEnv, maskedState] using hread
      rw [after_hitVerdict hf hread, after_hitVerdict hf' hread2]
      exact finish_result_congr _ _ _ _ _ _ rfl rfl
    | none =>
      have hread2 : (if (healthyEnv env).readVerdictOk then
          (maskedState env st).verdictSlot else none) = none := by
        simpa [healthyEnv, maskedState] using hread
      cases hab : analyzeBatchEmailImportanceWithAISDK env.apiKeySet env.aiResult v with
      | error e =>
        cases e
        have hab' : analyzeBatchEmailImportanceWithAISDK (healthyEnv env).apiKeySet
            (healthyEnv env).aiResult v = .error () := hab
        rw [after_missVerdict_err hf hread hab, after_missVerdict_err hf' hread2 hab']
      | ok vs =>
        have hab' : analyzeBatchEmailImportanceWithAISDK (healthyEnv env).apiKeySet
            (healthyEnv env).aiResult v = .ok vs := hab
        rw [after_missVerdict_ok hf hread hab, after_missVerdict_ok hf' hread2 hab']
        exact finish_result_congr _ _ _ _ _ _ rfl rfl
  | none =>
    have hc2 : cachedEmailsRead (healthyEnv env) (maskedState env st) = none := by
      unfold cachedEmailsRead at hc ⊢
      cases hffb : forceRefreshOf env with
      | true =>
        have hffh : forceRefreshOf (healthyEnv env) = true := hffb
        simp [hffh]
      | false =>
        have hffh : forceRefreshOf (healthyEnv env) = false := hffb
        rw [hffb] at hc
        rw [hffh]
        simp only [Bool.false_eq_true, if_false] at hc ⊢
        have h3 : (healthyEnv env).readEmailOk = true := rfl
        simpa [h3, maskedState] using hc
    cases hg : env.gmailResult with
    | error e =>
      cases e
      have hg' : (healthyEnv env).gmailResult = .error () := hg
      rw [triage_miss_err hc hg, triage_miss_err hc2 hg']
    | ok es =>
      have hg' : (healthyEnv env).gmailResult = .ok es := hg
      rw [triage_miss_ok hc hg, triage_miss_ok hc2 hg']
      cases hab : analyzeBatchEmailImportanceWithAISDK env.apiKeySet env.aiResult es with
      | error e =>
        cases e
        have hab' : analyzeBatchEmailImportanceWithAISDK (healthyEnv env).apiKeySet
            (healthyEnv env).aiResult es = .error () := hab
        rw [after_fresh_err hab, after_fresh_err hab']
      | ok vs =>
        have hab' : analyzeBatchEmailImportanceWithAISDK (healthyEnv env).apiKeySet
            (healthyEnv env).aiResult es = .ok vs := hab
        rw [after_fresh_ok hab, after_fresh_ok hab']
        exact finish_result_congr _ _ _ _ _ _ rfl rfl

/-- When the external calls all succeed, the route always produces a JSON
success, whatever the cache flags and slots. -/
lemma triage_ok_of_success (env : TriageEnv) (st : CacheState)
    {es : List Email} {vs : List BatchAnalyzedEmail} {ss : List SentEmail}
    (hg : env.gmailResult = .ok es)
    (hab : analyzeBatchEmailImportanceWithAISDK env.apiKeySet env.aiResult
      (currentEmails env st) = .ok vs)
    (hs : env.sentResult = .ok ss) :
    ∃ j, (triage env st).result = .ok j := by
  cases hc : cachedEmailsRead env st with
  | some v =>
    have hf := cachedEmailsRead_force_false hc
    have hcur : currentEmails env st = v := by simp [currentEmails, hc]
    rw [hcur] at hab
    rw [triage_hit hc]
    cases hread : (if env.readVerdictOk then st.verdictSlot else none) with
    | some b =>
      rw [after_hitVerdict hf hread]
      obtain ⟨j, hj, -, -, -⟩ := finish_shape hs
      exact ⟨j, hj⟩
    | none =>
      rw [after_missVerdict_ok hf hread hab]
      obtain ⟨j, hj, -, -, -⟩ := finish_shape hs
      exact ⟨j, hj⟩
  | none =>
    have hcur : currentEmails env st = es := by simp [currentEmails, hc, hg]
    rw [hcur] at hab
    rw [triage_miss_ok hc hg, after_fresh_ok hab]
    obtain ⟨j, hj, -, -, -⟩ := finish_shape hs
    exact ⟨j, hj⟩

/-- C6: cache failures are invisible to callers: the triage response equals
the response computed with healthy KV operations on the read-masked
state; when the external calls succeed the response is a JSON success
whatever the cache flags; and a successful trash returns the success
message whatever happens to the cache update. -/
theorem C6_cacheErrorsNeverPropagate (env : TriageEnv) (st : CacheState)
    (denv : DeleteEnv) (dst : CacheState) :
    ((triage env st).result = (triage (healthyEnv env) (maskedState env st)).result) ∧
      (∀ es vs ss, env.gmailResult = .ok es →
        analyzeBatchEmailImportanceWithAISDK env.apiKeySet env.aiResult
          (currentEmails env st) = .ok vs →
        env.sentResult = .ok ss → ∃ j, (triage env st).result = .ok j) ∧
      (denv.emailId ≠ "" → denv.trashOk = true →
        (deleteRoute denv dst).1 =
          DeleteResponse.success ("Email with ID: " ++ denv.emailId ++
            " successfully moved to trash. Cache updated.")) := by
  refine ⟨triage_result_mask env st, ?_, ?_⟩
  · intro es vs ss hg hab hs
    exact triage_ok_of_success env st hg hab hs
  · intro hid htrash
    have hbeq : (denv.emailId == "") = false := by simp [hid]
    simp [deleteRoute, hbeq, htrash]

/-- C6 witness: with every KV operation failing, triage still succeeds and a
trash still returns its success message. -/
theorem C6_witness :
    (∃ j, (triage failEnv c8St).result = .ok j) ∧
      (deleteRoute delFailEnv dupSt).1 =
        DeleteResponse.success ("Email with ID: " ++ delFailEnv.emailId ++
          " successfully moved to trash. Cache updated.") :=
  ⟨(C6_cacheErrorsNeverPropagate failEnv c8St delFailEnv dupSt).2.1 [] [] [] rfl rfl rfl,
   (C6_cacheErrorsNeverPropagate failEnv c8St delFailEnv dupSt).2.2 (by decide) rfl⟩

/-- Entries rejected by a filter contribute nothing to a `filterMap` whose
function drops them anyway. -/
lemma filterMap_filter_of_none {α β : Type} (f : α → Option β) (q : α → Bool)
    (h : ∀ a, q a = false → f a = none) (l : List α) :
    List.filterMap f (l.filter q) = List.filterMap f l := by
  induction l with
  | nil => rfl
  | cons a rest ih =>
    cases hq : q a with
    | false =>
      rw [List.filter_cons, hq]
      simp [List.filterMap_cons, h a hq, ih]
    | true =>
      rw [List.filter_cons, hq]
      cases hc : f a <;> simp [List.filterMap_cons, hc, ih]

/-- A message whose fetched data lacks an id is never converted. -/
lemma convertMessage_none {now : String} {parseIso : String → String} {m : RawMessage}
    (hid : m.id = none) : convertMessage now parseIso m = none := by
  unfold convertMessage
  rw [hid]
  cases m.threadId <;> split <;> rfl

/-- A converted message got the documented defaults for absent headers. -/
lemma convertMessage_defaults {now : String} {parseIso : String → String}
    {m : RawMessage} {e : Email} (h : convertMessage now parseIso m = some e) :
    (findHeaderValue m "Subject" = none → e.subject = "No Subject") ∧
      (findHeaderValue m "From" = none → e.«from» = "Unknown Sender") ∧
      (findHeaderValue m "Date" = none → e.receivedDateTime = now) := by
  unfold convertMessage at h
  split at h
  · exact absurd h (by simp)
  · split at h
    · split at h
      · exact absurd h (by simp)
      · injection h with h
        subst h
        refine ⟨?_, ?_, ?_⟩ <;> intro hh <;> simp [hh]
    · exact absurd h (by simp)

/-- C7: a listed message lacking both an id and a thread id contributes
nothing to the fetched list, and every included email got `No Subject`,
`Unknown Sender` and the fetch time for an absent Subject, From and Date
header respectively. -/
theorem C7_fetchUnreadDefaults :
    (∀ (now : String) (parseIso : String → String) (msgs : List RawMessage),
        getEmailsFromGmail now parseIso msgs =
          getEmailsFromGmail now parseIso
            (msgs.filter (fun m => !(m.id.isNone && m.threadId.isNone)))) ∧
      (∀ (now : String) (parseIso : String → String) (msgs : List RawMessage) (e : Email),
        e ∈ getEmailsFromGmail now parseIso msgs →
          ∃ m ∈ msgs, convertMessage now parseIso m = some e ∧
            (findHeaderValue m "Subject" = none → e.subject = "No Subject") ∧
            (findHeaderValue m "From" = none → e.«from» = "Unknown Sender") ∧
            (findHeaderValue m "Date" = none → e.receivedDateTime = now)) := by
  constructor
  · intro now parseIso msgs
    unfold getEmailsFromGmail
    refine (filterMap_filter_of_none _ _ ?_ msgs).symm
    intro m hm
    have hid : m.id = none := by
      have : (m.id.isNone && m.threadId.isNone) = true := by
        simpa using hm
      exact Option.isNone_iff_eq_none.mp ((Bool.and_eq_true _ _).mp this).1
    exact convertMessage_none hid
  · intro now parseIso msgs e he
    unfold getEmailsFromGmail at he
    obtain ⟨m, hm, hc⟩ := List.mem_filterMap.mp he
    obtain ⟨h1, h2, h3⟩ := convertMessage_defaults hc
    exact ⟨m, hm, hc, h1, h2, h3⟩

/-- C7 witness: a bare message with ids only yields the literal defaults. -/
theorem C7_witness :
    ∃ m ∈ [rawMsgBare], convertMessage "NOW" (fun s => s) m = some emailBare ∧
      (findHeaderValue m "Subject" = none → emailBare.subject = "No Subject") ∧
      (findHeaderValue m "From" = none → emailBare.«from» = "Unknown Sender") ∧
      (findHeaderValue m "Date" = none → emailBare.receivedDateTime = "NOW") :=
  C7_fetchUnreadDefaults.2 "NOW" (fun s => s) [rawMsgBare] emailBare (by decide)

/-- C8: evaluation at the failing input.  A successful zero-email triage run
returns a JSON success whose object carries no `num_emails` field, even
though the route's own `NeedsResponseOutput` interface declares the field
mandatory and the non-empty path always emits it. -/
theorem C8_emptyPathOmitsNumEmails :
    (triage c8Env c8St).result.numEmailsOf = some none ∧
      (∃ j, (triage c8Env c8St).result = .ok j) := by
  refine ⟨by decide, ?_⟩
  exact @triage_ok_of_success c8Env c8St [] [] [] rfl rfl rfl

/-- A found map entry carries the looked-up id. -/
lemma mapGet_some_id {fe : List Email} {id : String} {orig : Email}
    (h : fetchedEmailsMapGet fe id = some orig) : orig.id = id := by
  unfold fetchedEmailsMapGet at h
  have := List.find?_some h
  simpa using this

/-- The map lookup misses exactly when no fetched email carries the id. -/
lemma mapGet_none_iff {fe : List Email} {id : String} :
    fetchedEmailsMapGet fe id = none ↔ ∀ e ∈ fe, e.id ≠ id := by
  unfold fetchedEmailsMapGet
  rw [List.find?_eq_none]
  simp [List.mem_reverse]

/-- An orphan verdict contributes its mismatch entry to the display list. -/
lemma reconcile_orphan {fe : List Email} {ss : List SentEmail}
    {batch : List BatchAnalyzedEmail} {v : BatchAnalyzedEmail}
    (hv : v ∈ batch) (hnone : fetchedEmailsMapGet fe v.emailId = none) :
    orphanDisplay v ∈ (reconcile fe ss batch).2 := by
  induction batch with
  | nil => cases hv
  | cons a rest ih =>
    rcases List.mem_cons.mp hv with h | h
    · subst h
      simp [reconcile, hnone]
    · have hr := ih h
      cases hm : fetchedEmailsMapGet fe a.emailId with
      | some orig =>
        by_cases hn : a.needs_response = true <;> simp [reconcile, hm, hn, hr]
      | none => simp [reconcile, hm, hr]

/-- Every needs-response entry comes from a matched needs-response verdict. -/
lemma reconcile_needs_mem {fe : List Email} {ss : List SentEmail}
    {batch : List BatchAnalyzedEmail} {e : AnalyzedEmail}
    (he : e ∈ (reconcile fe ss batch).1) :
    ∃ a ∈ batch, ∃ orig, fetchedEmailsMapGet fe a.emailId = some orig ∧
      a.needs_response = true ∧ e = mkNeedsResponse orig a ss := by
  induction batch with
  | nil => simp [reconcile] at he
  | cons a rest ih =>
    cases hm : fetchedEmailsMapGet fe a.emailId with
    | some orig =>
      by_cases hn : a.needs_response = true
      · rw [show (reconcile fe ss (a :: rest)).1 =
            mkNeedsResponse orig a ss :: (reconcile fe ss rest).1 by
          simp [reconcile, hm, hn]] at he
        rcases List.mem_cons.mp he with h | h
        · exact ⟨a, List.mem_cons_self a rest, orig, hm, hn, h⟩
        · obtain ⟨b, hb, orig', hm', hn', he'⟩ := ih h
          exact ⟨b, List.mem_cons_of_mem a hb, orig', hm', hn', he'⟩
      · rw [show (reconcile fe ss (a :: rest)).1 = (reconcile fe ss rest).1 by
          simp [reconcile, hm, hn]] at he
        obtain ⟨b, hb, orig', hm', hn', he'⟩ := ih he
        exact ⟨b, List.mem_cons_of_mem a hb, orig', hm', hn', he'⟩
    | none =>
      rw [show (reconcile fe ss (a :: rest)).1 = (reconcile fe ss rest).1 by
        simp [reconcile, hm]] at he
      obtain ⟨b, hb, orig', hm', hn', he'⟩ := ih he
      exact ⟨b, List.mem_cons_of_mem a hb, orig', hm', hn', he'⟩

/-- Insertion adds exactly its element. -/
lemma mem_sortInsert {x y : AnalyzedEmail} {l : List AnalyzedEmail} :
    y ∈ sortInsert x l ↔ y = x ∨ y ∈ l := by
  induction l with
  | nil => simp [sortInsert]
  | cons z zs ih =>
    unfold sortInsert
    split
    · simp
    · simp [ih]
      tauto

/-- The ranked list has the same members as its input. -/
lemma mem_sortedEmails {y : AnalyzedEmail} {l : List AnalyzedEmail} :
    y ∈ sortedEmails l ↔ y ∈ l := by
  suffices h : ∀ (l acc : List AnalyzedEmail),
      (y ∈ l.foldl (fun acc x => sortInsert x acc) acc ↔ y ∈ acc ∨ y ∈ l) by
    have := h l []
    simpa [sortedEmails] using this
  intro l
  induction l with
  | nil => simp
  | cons a rest ih =>
    intro acc
    rw [List.foldl_cons, ih]
    simp [mem_sortInsert]
    tauto

/-- Inversion of a successful tail stage: either the zero-email early return
(empty lists) or the full output built from reconcile and the ranking. -/
lemma finish_ok_inv {env : TriageEnv} {st : CacheState} {tr : List TriageEv}
    {fe : List Email} {b : List BatchAnalyzedEmail} {j : TriageJson}
    (hok : (triageFinish env st tr fe b).result = .ok j) :
    (j.needs_response_emails = [] ∧ j.analyzed_emails = [] ∧ fe = []) ∨
      (fe ≠ [] ∧ ∃ ss, env.sentResult = .ok ss ∧
        j.needs_response_emails = sortedEmails (reconcile fe ss b).1 ∧
        j.analyzed_emails = (reconcile fe ss b).2) := by
  by_cases h0 : fe.length = 0
  · left
    have hfe : fe = [] := List.length_eq_zero.mp h0
    unfold triageFinish at hok
    rw [if_pos h0] at hok
    injection hok with h
    exact ⟨by rw [← h], by rw [← h], hfe⟩
  · right
    have hfe : fe ≠ [] := by
      intro hh
      exact h0 (by simp [hh])
    cases hs : env.sentResult with
    | error e =>
      unfold triageFinish at hok
      rw [if_neg h0, hs] at hok
      simp at hok
    | ok ss =>
      obtain ⟨j', hj', -, hneeds, hanalyzed⟩ := @finish_shape env st tr fe b ss hs
      have hj : j' = j := by
        have h := hj'.symm.trans hok
        injection h
      subst hj
      rw [if_neg h0] at hneeds hanalyzed
      exact ⟨hfe, ss, rfl, hneeds, hanalyzed⟩

/-- C4 (amended): when the fetched set is nonempty, every orphan verdict
yields a display entry with both name fields set to the mismatch literal,
carrying the verdict data with the not-found suffix appended to its
reason; no needs-response entry ever carries an orphan id.  (On the
zero-email early return, no display entry is produced at all.) -/
theorem C4_orphanVerdicts (env : TriageEnv) (st : CacheState) (tr : List TriageEv)
    (fe : List Email) (batch : List BatchAnalyzedEmail) (j : TriageJson)
    (v : BatchAnalyzedEmail)
    (hok : (triageFinish env st tr fe batch).result = .ok j)
    (hv : v ∈ batch)
    (horphan : ∀ e ∈ fe, e.id ≠ v.emailId) :
    (fe ≠ [] →
      ∃ d ∈ j.analyzed_emails,
        d.id = v.emailId ∧ d.«from» = "Unknown (AI Mismatch)" ∧
        d.subject = "Unknown (AI Mismatch)" ∧ d.importance = v.importance ∧
        d.reason = v.reason ++ " (Original email not found for this ID in fetched batch)" ∧
        d.needs_response = v.needs_response ∧ d.time_sensitive = v.time_sensitive ∧
        d.topics = v.topics) ∧
      (∀ e ∈ j.needs_response_emails, e.id ≠ v.emailId) := by
  have hnone : fetchedEmailsMapGet fe v.emailId = none := mapGet_none_iff.mpr horphan
  rcases finish_ok_inv hok with ⟨hne, hana, hfe⟩ | ⟨hfe, ss, hs, hneeds, hanalyzed⟩
  · constructor
    · intro h
      exact absurd hfe h
    · intro e he
      rw [hne] at he
      cases he
  · constructor
    · intro _
      refine ⟨orphanDisplay v, ?_, rfl, rfl, rfl, rfl, rfl, rfl, rfl, rfl⟩
      rw [hanalyzed]
      exact reconcile_orphan hv hnone
    · intro e he
      rw [hneeds] at he
      obtain ⟨a, -, orig, hm, -, heq⟩ := reconcile_needs_mem (mem_sortedEmails.mp he)
      have hid : e.id = a.emailId := by
        rw [heq]
        show orig.id = a.emailId
        exact mapGet_some_id hm
      intro hcontra
      rw [hid] at hcontra
      rw [hcontra] at hm
      rw [hnone] at hm
      cases hm

/-- C4 witness: a lone orphan verdict against a nonempty fetched set yields
exactly the mismatch display entry and no needs-response entry. -/
theorem C4_witness :
    ∃ j, (triageFinish baseTriageEnv c1St [] [c1Email] [orphanV]).result = .ok j ∧
      (∃ d ∈ j.analyzed_emails,
        d.id = orphanV.emailId ∧ d.«from» = "Unknown (AI Mismatch)" ∧
        d.subject = "Unknown (AI Mismatch)" ∧ d.importance = orphanV.importance ∧
        d.reason = orphanV.reason ++
          " (Original email not found for this ID in fetched batch)" ∧
        d.needs_response = orphanV.needs_response ∧
        d.time_sensitive = orphanV.time_sensitive ∧
        d.topics = orphanV.topics) ∧
      (∀ e ∈ j.needs_response_emails, e.id ≠ orphanV.emailId) := by
  obtain ⟨j, hok, -, -, -⟩ := @finish_shape baseTriageEnv c1St [] [c1Email] [orphanV] [] rfl
  refine ⟨j, hok, ?_, ?_⟩
  · exact (C4_orphanVerdicts baseTriageEnv c1St [] [c1Email] [orphanV] j orphanV hok
      (by decide) (by decide)).1 (by decide)
  · exact (C4_orphanVerdicts baseTriageEnv c1St [] [c1Email] [orphanV] j orphanV hok
      (by decide) (by decide)).2

/-- C4 counterexample: on the zero-email early return an orphan verdict read
from the verdict cache produces no display entry at all, and on the
nonempty path the orphan entry does not carry the verdict reason
verbatim (the not-found suffix is appended). -/
theorem C4_counterexample :
    (c4aSt.verdictSlot = some [orphanV] ∧
      (triage baseTriageEnv c4aSt).result.analyzedOf = some [] ) ∧
      ((triage c4bEnv c1St).result.analyzedOf = some [orphanDisplay orphanV] ∧
        (orphanDisplay orphanV).reason ≠ orphanV.reason) := by
  refine ⟨⟨rfl, by decide⟩, ⟨by decide, by decide⟩⟩

/-- The shortened body never exceeds 1003 characters. -/
lemma truncBody_length_le (b : String) : (truncBody b).length ≤ 1003 := by
  unfold truncBody
  have h1 : (strTake b 1000).length ≤ 1000 := by
    unfold strTake
    show (b.data.take 1000).length ≤ 1000
    simp [List.length_take]
  by_cases h : 1000 < b.length
  · rw [if_pos h, String.length_append]
    have h2 : ("..." : String).length = 3 := rfl
    omega
  · rw [if_neg h, String.length_append]
    have h2 : ("" : String).length = 0 := rfl
    omega

/-- C9 (amended): every needs-response entry carries the body of its source
email shortened by `substring(0, 1000)` with `...` appended exactly when
the original exceeds 1000 characters; the field never exceeds 1003
characters, and for a long original it equals the untruncated body
exactly when that body coincides with its own shortening (a 1003-character
body ending in `...`). -/
theorem C9_bodyTruncation (env : TriageEnv) (st : CacheState) (tr : List TriageEv)
    (fe : List Email) (batch : List BatchAnalyzedEmail) (j : TriageJson)
    (hok : (triageFinish env st tr fe batch).result = .ok j) :
    ∀ e ∈ j.needs_response_emails,
      ∃ orig, fetchedEmailsMapGet fe e.id = some orig ∧
        e.body = truncBody orig.body ∧
        e.body.length ≤ 1003 ∧
        (1000 < orig.body.length →
          (e.body = orig.body ↔ orig.body = truncBody orig.body)) := by
  intro e he
  rcases finish_ok_inv hok with ⟨hne, -, -⟩ | ⟨-, ss, -, hneeds, -⟩
  · rw [hne] at he
    cases he
  · rw [hneeds] at he
    obtain ⟨a, -, orig, hm, -, heq⟩ := reconcile_needs_mem (mem_sortedEmails.mp he)
    have hid : e.id = a.emailId := by
      rw [heq]
      show orig.id = a.emailId
      exact mapGet_some_id hm
    have hbody : e.body = truncBody orig.body := by
      rw [heq]
      rfl
    refine ⟨orig, ?_, hbody, ?_, ?_⟩
    · rw [hid]
      exact hm
    · rw [hbody]
      exact truncBody_length_le orig.body
    · intro _
      rw [hbody]
      constructor
      · intro h
        exact h.symm
      · intro h
        exact h.symm

/-- C9 witness: the needs-response entry for a short-bodied email carries its
shortened (here unchanged) body. -/
theorem C9_witness :
    ∃ j, (triageFinish baseTriageEnv c1St [] [c1Email] [c1Verdict]).result = .ok j ∧
      ∀ e ∈ j.needs_response_emails,
        ∃ orig, fetchedEmailsMapGet [c1Email] e.id = some orig ∧
          e.body = truncBody orig.body ∧
          e.body.length ≤ 1003 ∧
          (1000 < orig.body.length →
            (e.body = orig.body ↔ orig.body = truncBody orig.body)) := by
  obtain ⟨j, hok, -, -, -⟩ := @finish_shape baseTriageEnv c1St [] [c1Email] [c1Verdict] [] rfl
  exact ⟨j, hok, C9_bodyTruncation baseTriageEnv c1St [] [c1Email] [c1Verdict] j hok⟩

set_option maxRecDepth 100000 in
/-- C9 counterexample: a 1003-character body ending in `...` exceeds 1000
characters yet is returned verbatim in `needs_response_emails` — the
untruncated body does appear in the JSON output. -/
theorem C9_counterexample :
    1000 < bigEmail.body.length ∧
      ((triage c9Env c1St).result.needsOf).map (fun l => l.map (fun e => e.body)) =
        some [bigEmail.body] := by
  constructor
  · show 1000 < bigBody.length
    show 1000 < (List.replicate 1000 'a' ++ "...".data).length
    rw [List.length_append, List.length_replicate]
    have h3 : ("...".data).length = 3 := rfl
    omega
  · decide
